import Mathlib

/-!
Shallow embedding of the valtio-roastsight-web virtual roaster driver
(`src/drivers/virtual_driver/index.ts` and
`src/drivers/common/abstractDriver.ts`).

JavaScript numbers are modelled as rationals (`ℚ`); the stateful closure
over the valtio proxy is modelled as explicit state passing over
`DriverState`.  Random draws (`Math.random`, `getRandomArbitrary`) are
modelled as explicit inputs.  The state carries one ghost field,
`actuationInvocations`, incremented exactly where the TypeScript code
invokes the stored command behavior (`state.commands.byId[k].command(...)`),
so that "the actuation behavior was (not) invoked" is observable.
-/

namespace RoastSight

/-- The `burnerLevel` measure: `hasTarget = true`, so it carries
`targetValue` and `previousValue` (lines 48-54 of the driver). -/
structure TargetMeasure where
  value : ℚ
  targetValue : ℚ
  previousValue : ℚ
  deriving Repr, DecidableEq

/-- The driver state (`IState` specialised to the virtual driver's registry:
measures `beanTemperature`, `airTemperature`, `burnerLevel`; single command
`burnerLevel`).  `lastVerb`/`lastTarget` model `lastCommand`; `cycleRunning`
models whether the `setInterval` update cycle is active; the ghost counter
`actuationInvocations` counts invocations of the stored command behavior. -/
structure DriverState where
  beanTemperature : ℚ
  airTemperature : ℚ
  burnerLevel : TargetMeasure
  issuingCommand : Bool
  lastVerb : Option String
  lastTarget : Option ℚ
  retriesCounter : ℕ
  connected : Bool
  failedConnections : ℕ
  cycleRunning : Bool
  actuationInvocations : ℕ
  deriving Repr, DecidableEq

/-- Driver params consulted by the embedded operations (`IParams`,
stripped to the `value` field of each `IParam`). -/
structure Params where
  connectionRejectionPercentage : ℚ
  maxReconnectionAttempts : ℕ
  commandRetryLimited : Bool
  maxNumberOfRetries : ℕ
  deriving Repr, DecidableEq

/-- The driver's `initialState` literal (lines 35-79): all measures at 0,
`issuingCommand = false`, empty `lastCommand`, zero counters, disconnected. -/
def initialState : DriverState where
  beanTemperature := 0
  airTemperature := 0
  burnerLevel := { value := 0, targetValue := 0, previousValue := 0 }
  issuingCommand := false
  lastVerb := none
  lastTarget := none
  retriesCounter := 0
  connected := false
  failedConnections := 0
  cycleRunning := false
  actuationInvocations := 0

/-- The driver's `defaultParams` (lines 126-160), restricted to the fields
the embedded operations consult. -/
def defaultParams : Params where
  connectionRejectionPercentage := 50
  maxReconnectionAttempts := 0
  commandRetryLimited := true
  maxNumberOfRetries := 10

/-- `changeBurnerLevelTo` (lines 239-241): writes only
`measures.byId["burnerLevel"].targetValue`. -/
def changeBurnerLevelTo (target : ℚ) (s : DriverState) : DriverState :=
  { s with burnerLevel.targetValue := target }

/-- `changeBurnerLevel` (lines 220-237): verb dispatch.  `"set_to"` sets the
target; `"increase"` sets the target to `value + target`; the `default`
branch only logs (`"Not implemented: burner Control"`) and mutates nothing. -/
def changeBurnerLevel (verb : String) (target : ℚ) (s : DriverState) :
    DriverState :=
  match verb with
  | "set_to" => changeBurnerLevelTo target s
  | "increase" => changeBurnerLevelTo (s.burnerLevel.value + target) s
  | _ => s

/-- An invocation of the stored command behavior
(`state.commands.byId["burnerLevel"].command`, i.e. `changeBurnerLevel`).
`args = none` models the zero-argument call in `retryCommand` (line 340):
`verb` is then `undefined`, which matches neither `"set_to"` nor
`"increase"`, so the dispatch takes the `default` branch.  The ghost
counter records the invocation. -/
def invokeBurnerBehavior (args : Option (String × ℚ)) (s : DriverState) :
    DriverState :=
  let s1 := { s with actuationInvocations := s.actuationInvocations + 1 }
  match args with
  | some (verb, target) => changeBurnerLevel verb target s1
  | none => s1

/-- `command` for `control = "burnerLevel"` (lines 206-218): sets
`issuingCommand := true`, records `lastCommand`, snapshots
`previousValue := value`, sets `targetValue := target`, then invokes the
stored behavior with `(verb, target)`. -/
def command (verb : String) (target : ℚ) (s : DriverState) : DriverState :=
  let s1 :=
    { s with
      issuingCommand := true
      lastVerb := some verb
      lastTarget := some target
      burnerLevel :=
        { s.burnerLevel with
          previousValue := s.burnerLevel.value
          targetValue := target } }
  invokeBurnerBehavior (some (verb, target)) s1

/-- `retryCommand` (lines 339-344): invokes the stored behavior with no
arguments, increments `retriesCounter`, snapshots
`previousValue := value`. -/
def retryCommand (s : DriverState) : DriverState :=
  let s1 := invokeBurnerBehavior none s
  { s1 with
    retriesCounter := s1.retriesCounter + 1
    burnerLevel.previousValue := s1.burnerLevel.value }

/-- `shouldRetryCommand` (`abstractDriver.ts`, lines 5-43):
`issuingCommand && |value - targetValue| >= |previousValue - targetValue|
&& ((commandRetryLimited && retriesCounter <= maxNumberOfRetries) ||
!commandRetryLimited)`. -/
def shouldRetryCommand (s : DriverState) (p : Params) : Bool :=
  let requestedTargetChange := s.issuingCommand
  let currentDistance := s.burnerLevel.value - s.burnerLevel.targetValue
  let previousDistance := s.burnerLevel.previousValue - s.burnerLevel.targetValue
  let progressionNotObserved : Bool :=
    if |currentDistance| ≥ |previousDistance| then true else false
  let canRetryCommand : Bool :=
    (p.commandRetryLimited && decide (s.retriesCounter ≤ p.maxNumberOfRetries))
      || !p.commandRetryLimited
  requestedTargetChange && progressionNotObserved && canRetryCommand

/-- `checkCommand` (lines 281-296): if `shouldRetryCommand` then
`retryCommand`; then, if `|value - targetValue| <= 0.01 * value` and
`issuingCommand`, clear `issuingCommand`. -/
def checkCommand (p : Params) (s : DriverState) : DriverState :=
  let s1 := if shouldRetryCommand s p then retryCommand s else s
  if |s1.burnerLevel.value - s1.burnerLevel.targetValue|
        ≤ (1 / 100 : ℚ) * s1.burnerLevel.value
      ∧ s1.issuingCommand then
    { s1 with issuingCommand := false }
  else s1

/-- One attempt of `connect` (lines 176-197) together with
`createConnection` (lines 301-316), with the `Math.random` draw made
explicit.  Returns the new state and whether a reconnection retry was
scheduled (`setTimeout` on line 194).  Failure branch: the draw is below
`rejectionPercentage` (= param / 100); it increments `failedConnections`,
sets `connected := false`, and schedules a retry iff
`maxReconnectionAttempts == 0` or
`maxReconnectionAttempts > failedConnections` (already incremented).
Success branch: resets `failedConnections := 0`, sets `connected := true`,
starts the update cycle. -/
def connectAttempt (rand : ℚ) (p : Params) (s : DriverState) :
    DriverState × Bool :=
  if rand < p.connectionRejectionPercentage / 100 then
    let s1 :=
      { s with
        failedConnections := s.failedConnections + 1
        connected := false }
    (s1,
      decide (p.maxReconnectionAttempts = 0)
        || decide (p.maxReconnectionAttempts > s1.failedConnections))
  else
    ({ s with
        failedConnections := 0
        connected := true
        cycleRunning := true }, false)

/-- `disconnect` (lines 201-204): `connected := false` and
`clearInterval(updateCycleId)`. -/
def disconnect (s : DriverState) : DriverState :=
  { s with connected := false, cycleRunning := false }

/-- One tick of the update cycle (`startUpdateCycle`, lines 321-337), with
the two `getNewMeasure()` draws made explicit.  Measures without a target
(`beanTemperature`, `airTemperature`) are overwritten by fresh draws;
`burnerLevel` has `hasTarget = true` and is skipped.  Then, for the single
command `burnerLevel`: `checkCommand`, then
`previousValue := value`. -/
def tick (randBean randAir : ℚ) (p : Params) (s : DriverState) : DriverState :=
  let s1 := { s with beanTemperature := randBean, airTemperature := randAir }
  let s2 := checkCommand p s1
  { s2 with burnerLevel.previousValue := s2.burnerLevel.value }

/-- The loop of `moveBurnerLevel` (lines 252-261), fuel-indexed: while the
value has not crossed `endLevel * 0.95` in the travel direction, add the
increment.  (In the source this routine is declared but never invoked.) -/
def moveBurnerLevelLoop (endLevel increment : ℚ) : ℕ → ℚ → ℚ
  | 0, v => v
  | fuel + 1, v =>
    if (increment > 0 ∧ v < endLevel * (95 / 100))
        ∨ (increment < 0 ∧ v > endLevel * (95 / 100)) then
      moveBurnerLevelLoop endLevel increment fuel (v + increment)
    else v

/-- `moveBurnerLevel` (lines 244-262) as a function of the burner value and
target: increment is `0.5` when below the target, `-0.5` otherwise; the
loop runs to the 95% band.  Dead code in the source: no operation calls
it. -/
def moveBurnerLevel (fuel : ℕ) (value targetValue : ℚ) : ℚ :=
  let endLevel := targetValue
  let increment : ℚ := if value < endLevel then 1 / 2 else -(1 / 2)
  moveBurnerLevelLoop endLevel increment fuel value

/-- The driver operations reachable through the public surface and the
update cycle, with every random draw an explicit argument. -/
inductive Op where
  | connect (rand : ℚ)
  | disconnect
  | command (verb : String) (target : ℚ)
  | checkCommand
  | retryCommand
  | tick (randBean randAir : ℚ)
  deriving Repr, DecidableEq

/-- Interpretation of one operation on the driver state. -/
def step (p : Params) (op : Op) (s : DriverState) : DriverState :=
  match op with
  | .connect rand => (connectAttempt rand p s).1
  | .disconnect => disconnect s
  | .command verb target => command verb target s
  | .checkCommand => checkCommand p s
  | .retryCommand => retryCommand s
  | .tick randBean randAir => tick randBean randAir p s

/-- A run: fold a list of operations over a start state. -/
def run (p : Params) (ops : List Op) (s : DriverState) : DriverState :=
  ops.foldl (fun acc op => step p op acc) s

/-- Params with a limited retry budget of zero, for concrete instantiation. -/
def zeroRetryParams : Params where
  connectionRejectionPercentage := 50
  maxReconnectionAttempts := 0
  commandRetryLimited := true
  maxNumberOfRetries := 0

/-- A state with an outstanding command that has already retried once. -/
def stalledState : DriverState :=
  { initialState with issuingCommand := true, retriesCounter := 1 }

/-- A state with an outstanding command, otherwise initial. -/
def issuingState : DriverState :=
  { initialState with issuingCommand := true }

/-- A state with an outstanding command whose value sits exactly on its
target (tolerance check satisfied). -/
def convergedState : DriverState :=
  { initialState with
    issuingCommand := true
    burnerLevel := { value := 10, targetValue := 10, previousValue := 9 } }

/-- A state with an outstanding command far from its target
(value 0, target 10: tolerance check fails). -/
def farState : DriverState :=
  { initialState with
    issuingCommand := true
    burnerLevel := { value := 0, targetValue := 10, previousValue := 0 } }

end RoastSight

namespace RoastSight

/-! ### Helper lemmas shared by the claim theorems -/

/-- Unfolded form of `retryCommand`: the zero-argument behavior invocation
only bumps the ghost counter, so the whole operation increments
`retriesCounter`, increments `actuationInvocations`, and snapshots
`previousValue`. -/
theorem retryCommand_eq (s : DriverState) :
    retryCommand s =
      { s with
        retriesCounter := s.retriesCounter + 1
        actuationInvocations := s.actuationInvocations + 1
        burnerLevel.previousValue := s.burnerLevel.value } := by
  cases s with
  | mk bean air burner issuing lv lt rc conn fc cyc act => rfl

theorem retryCommand_value (s : DriverState) :
    (retryCommand s).burnerLevel.value = s.burnerLevel.value := by
  rw [retryCommand_eq]

theorem retryCommand_target (s : DriverState) :
    (retryCommand s).burnerLevel.targetValue = s.burnerLevel.targetValue := by
  rw [retryCommand_eq]

theorem retryCommand_issuing (s : DriverState) :
    (retryCommand s).issuingCommand = s.issuingCommand := by
  rw [retryCommand_eq]

/-- When `issuingCommand` is false, `shouldRetryCommand` is false. -/
theorem shouldRetryCommand_of_not_issuing (s : DriverState) (p : Params)
    (h : s.issuingCommand = false) : shouldRetryCommand s p = false := by
  simp [shouldRetryCommand, h]

/-- When `issuingCommand` is false, `checkCommand` is the identity. -/
theorem checkCommand_of_not_issuing (p : Params) (s : DriverState)
    (h : s.issuingCommand = false) : checkCommand p s = s := by
  unfold checkCommand
  rw [shouldRetryCommand_of_not_issuing s p h]
  simp [h]

end RoastSight

namespace RoastSight

/-! ### Claim theorems -/

/-- Claim C3: `shouldRetryCommand` returns true iff `issuingCommand = true`,
no progress was observed (`|value - targetValue| ≥
|previousValue - targetValue|`, equality counting as no-progress), and the
retry budget allows (`commandRetryLimited = false`, or
`retriesCounter ≤ maxNumberOfRetries`, an inclusive bound).  In particular,
with `commandRetryLimited = true` and `maxNumberOfRetries = 0` it returns
true only while `retriesCounter = 0` and false once `retriesCounter ≥ 1`
regardless of progress, and it is false whenever `issuingCommand = false`. -/
theorem shouldRetryCommand_characterisation (p : Params) (s : DriverState) :
    (shouldRetryCommand s p = true ↔
      (s.issuingCommand = true ∧
        |s.burnerLevel.value - s.burnerLevel.targetValue| ≥
          |s.burnerLevel.previousValue - s.burnerLevel.targetValue| ∧
        (p.commandRetryLimited = false ∨
          s.retriesCounter ≤ p.maxNumberOfRetries))) ∧
    (p.commandRetryLimited = true → p.maxNumberOfRetries = 0 →
      (shouldRetryCommand s p = true → s.retriesCounter = 0) ∧
      (1 ≤ s.retriesCounter → shouldRetryCommand s p = false)) ∧
    (s.issuingCommand = false → shouldRetryCommand s p = false) := by
  have hmain : shouldRetryCommand s p = true ↔
      (s.issuingCommand = true ∧
        |s.burnerLevel.value - s.burnerLevel.targetValue| ≥
          |s.burnerLevel.previousValue - s.burnerLevel.targetValue| ∧
        (p.commandRetryLimited = false ∨
          s.retriesCounter ≤ p.maxNumberOfRetries)) := by
    unfold shouldRetryCommand
    by_cases hprog : |s.burnerLevel.value - s.burnerLevel.targetValue| ≥
        |s.burnerLevel.previousValue - s.burnerLevel.targetValue| <;>
      cases hlim : p.commandRetryLimited <;>
        simp [hprog, hlim]
  refine ⟨hmain, ⟨fun hlim hmax => ⟨fun htrue => ?_, fun hge => ?_⟩, fun hfalse => ?_⟩⟩
  · have h := (hmain.mp htrue).2.2
    rw [hlim, hmax] at h
    simpa using h
  · by_contra hne
    have htrue : shouldRetryCommand s p = true := by
      cases h : shouldRetryCommand s p with
      | false => exact absurd h hne
      | true => rfl
    have h0 := (hmain.mp htrue).2.2
    rw [hlim, hmax] at h0
    rcases h0 with h0 | h0
    · exact absurd h0 (by simp)
    · omega
  · exact shouldRetryCommand_of_not_issuing s p hfalse

end RoastSight

namespace RoastSight

/-- Witness for claim C3: with `commandRetryLimited = true`,
`maxNumberOfRetries = 0` and `retriesCounter = 1`, `shouldRetryCommand`
returns false. -/
theorem shouldRetryCommand_characterisation_witness :
    shouldRetryCommand stalledState zeroRetryParams = false :=
  ((shouldRetryCommand_characterisation zeroRetryParams stalledState).2.1
    rfl rfl).2 (by decide)

/-- Claim C10: `retryCommand` invokes the stored behavior with no
arguments, so the dispatch takes the default (not-implemented) branch; its
only state effects are incrementing `retriesCounter` (and the ghost
invocation counter) and snapshotting `previousValue := value`, leaving
`value`, `targetValue`, `issuingCommand` and `lastCommand` unchanged. -/
theorem retryCommand_frame (s : DriverState) (h : s.issuingCommand = true) :
    retryCommand s =
      { s with
        retriesCounter := s.retriesCounter + 1
        actuationInvocations := s.actuationInvocations + 1
        burnerLevel.previousValue := s.burnerLevel.value } ∧
    (retryCommand s).burnerLevel.value = s.burnerLevel.value ∧
    (retryCommand s).burnerLevel.targetValue = s.burnerLevel.targetValue ∧
    (retryCommand s).issuingCommand = true ∧
    (retryCommand s).lastVerb = s.lastVerb ∧
    (retryCommand s).lastTarget = s.lastTarget := by
  refine ⟨retryCommand_eq s, retryCommand_value s, retryCommand_target s,
    ?_, ?_, ?_⟩ <;> rw [retryCommand_eq]
  exact h

/-- Witness for claim C10 at a concrete issuing state. -/
theorem retryCommand_frame_witness :
    (retryCommand issuingState).issuingCommand = true ∧
    (retryCommand issuingState).lastVerb = issuingState.lastVerb :=
  ⟨(retryCommand_frame issuingState rfl).2.2.2.1,
    (retryCommand_frame issuingState rfl).2.2.2.2.1⟩

/-- Claim C6: once `issuingCommand = false`, any number of `checkCommand`
invocations behaves as the identity: the actuation behavior is never
invoked (ghost counter unchanged) and `retriesCounter` is never mutated. -/
theorem checkCommand_converged_idempotent (p : Params) (s : DriverState)
    (n : ℕ) (h : s.issuingCommand = false) :
    (checkCommand p)^[n] s = s ∧
    ((checkCommand p)^[n] s).actuationInvocations = s.actuationInvocations ∧
    ((checkCommand p)^[n] s).retriesCounter = s.retriesCounter := by
  have hfix : (checkCommand p)^[n] s = s :=
    Function.iterate_fixed (checkCommand_of_not_issuing p s h) n
  exact ⟨hfix, by rw [hfix], by rw [hfix]⟩

/-- Witness for claim C6: three `checkCommand` invocations on the initial
(converged) state leave it unchanged. -/
theorem checkCommand_converged_idempotent_witness :
    (checkCommand defaultParams)^[3] initialState = initialState :=
  (checkCommand_converged_idempotent defaultParams initialState 3 rfl).1

end RoastSight

namespace RoastSight

/-- `checkCommand` never decreases `retriesCounter`: the retry branch adds
one and the convergence branch only clears `issuingCommand`. -/
theorem checkCommand_retries_ge (p : Params) (s : DriverState) :
    s.retriesCounter ≤ (checkCommand p s).retriesCounter := by
  unfold checkCommand
  by_cases hr : shouldRetryCommand s p <;>
    simp [hr, retryCommand_eq] <;> split <;> simp

/-- Claim C8: across every driver operation (`connect`, `disconnect`,
`command`, `checkCommand`, `retryCommand`, sampling tick), the command's
`retriesCounter` never decreases: it is monotonically non-decreasing over
the lifetime of a driver instance, and no operation resets it. -/
theorem retriesCounter_monotone (p : Params) (op : Op) (s : DriverState) :
    s.retriesCounter ≤ (step p op s).retriesCounter := by
  cases op with
  | connect rand =>
      simp only [step, connectAttempt]
      split <;> simp
  | disconnect => simp [step, disconnect]
  | command verb target =>
      simp only [step, command, invokeBurnerBehavior, changeBurnerLevel,
        changeBurnerLevelTo]
      split <;> simp
  | checkCommand => exact checkCommand_retries_ge p s
  | retryCommand => simp [step, retryCommand_eq]
  | tick randBean randAir =>
      have h1 := checkCommand_retries_ge p
        { s with beanTemperature := randBean, airTemperature := randAir }
      simpa [step, tick] using h1

end RoastSight

namespace RoastSight

/-- `checkCommand` never changes the burner value. -/
theorem checkCommand_burner_value (p : Params) (s : DriverState) :
    (checkCommand p s).burnerLevel.value = s.burnerLevel.value := by
  unfold checkCommand
  by_cases hr : shouldRetryCommand s p <;>
    simp [hr, retryCommand_eq] <;> split <;> simp

/-- `checkCommand` never changes the burner target. -/
theorem checkCommand_burner_target (p : Params) (s : DriverState) :
    (checkCommand p s).burnerLevel.targetValue = s.burnerLevel.targetValue := by
  unfold checkCommand
  by_cases hr : shouldRetryCommand s p <;>
    simp [hr, retryCommand_eq] <;> split <;> simp

/-- Characterisation of the convergence check: after `checkCommand`,
`issuingCommand` is false exactly when it already was, or the tolerance
held on the (unchanged) value and target. -/
theorem checkCommand_issuing_false_iff (p : Params) (s : DriverState) :
    (checkCommand p s).issuingCommand = false ↔
      (s.issuingCommand = false ∨
        |s.burnerLevel.value - s.burnerLevel.targetValue| ≤
          (1 / 100 : ℚ) * s.burnerLevel.value) := by
  unfold checkCommand
  by_cases hr : shouldRetryCommand s p <;>
    by_cases htol : |s.burnerLevel.value - s.burnerLevel.targetValue| ≤
        (1 / 100 : ℚ) * s.burnerLevel.value <;>
      cases hiss : s.issuingCommand <;>
        simp [hr, htol, hiss, retryCommand_eq, -one_div]

/-- Claim C5: after `checkCommand`, `issuingCommand` is false exactly when
either it was already false or `|value - targetValue| ≤ 0.01 * value` held
(tolerance relative to the current value, zero tolerance at `value = 0`);
`checkCommand` never sets `issuingCommand` to true. -/
theorem checkCommand_convergence (p : Params) (s : DriverState) :
    ((checkCommand p s).issuingCommand = false ↔
      (s.issuingCommand = false ∨
        |s.burnerLevel.value - s.burnerLevel.targetValue| ≤
          (1 / 100 : ℚ) * s.burnerLevel.value)) ∧
    ((checkCommand p s).issuingCommand = true → s.issuingCommand = true) := by
  refine ⟨checkCommand_issuing_false_iff p s, fun htrue => ?_⟩
  cases hiss : s.issuingCommand
  · have := (checkCommand_issuing_false_iff p s).mpr (Or.inl hiss)
    rw [this] at htrue
    exact absurd htrue (by simp)
  · rfl

/-- Witness for claim C5: a state sitting exactly on target is cleared; a
state far from target keeps `issuingCommand = true`. -/
theorem checkCommand_convergence_witness :
    (checkCommand defaultParams convergedState).issuingCommand = false ∧
    farState.issuingCommand = true :=
  ⟨(checkCommand_convergence defaultParams convergedState).1.mpr
      (Or.inr (by norm_num [convergedState, initialState])),
    (checkCommand_convergence defaultParams farState).2
      (by norm_num [checkCommand, shouldRetryCommand, retryCommand,
        invokeBurnerBehavior, farState, initialState, defaultParams])⟩

end RoastSight

namespace RoastSight

/-- Claim C7: `disconnect` only sets `connected := false` and cancels the
update cycle; a subsequent `connect` attempt (either outcome of the random
draw) leaves the command's `retriesCounter` and every measure's value
unchanged: reconnection does not reset command history. -/
theorem disconnect_connect_frame (p : Params) (rand : ℚ) (s : DriverState) :
    disconnect s = { s with connected := false, cycleRunning := false } ∧
    (connectAttempt rand p (disconnect s)).1.retriesCounter =
      s.retriesCounter ∧
    (connectAttempt rand p (disconnect s)).1.burnerLevel.value =
      s.burnerLevel.value ∧
    (connectAttempt rand p (disconnect s)).1.beanTemperature =
      s.beanTemperature ∧
    (connectAttempt rand p (disconnect s)).1.airTemperature =
      s.airTemperature := by
  refine ⟨rfl, ?_, ?_, ?_, ?_⟩ <;>
    · unfold connectAttempt disconnect
      split <;> rfl

/-- Claim C4: a `connect` attempt fails exactly when the drawn random value
is below the rejection fraction, incrementing `failedConnections` and
clearing `connected`, with a retry scheduled iff
`maxReconnectionAttempts = 0` or the incremented `failedConnections` is
strictly below `maxReconnectionAttempts`; on success it resets
`failedConnections`, sets `connected := true` and starts the sampling
cycle.  With a 100% rejection percentage every draw in `[0, 1)` fails; with
0% every non-negative draw succeeds. -/
theorem connectAttempt_characterisation (p : Params) (s : DriverState)
    (rand : ℚ) :
    (rand < p.connectionRejectionPercentage / 100 →
      (connectAttempt rand p s).1.failedConnections =
        s.failedConnections + 1 ∧
      (connectAttempt rand p s).1.connected = false ∧
      ((connectAttempt rand p s).2 = true ↔
        (p.maxReconnectionAttempts = 0 ∨
          s.failedConnections + 1 < p.maxReconnectionAttempts))) ∧
    (¬rand < p.connectionRejectionPercentage / 100 →
      (connectAttempt rand p s).1.failedConnections = 0 ∧
      (connectAttempt rand p s).1.connected = true ∧
      (connectAttempt rand p s).1.cycleRunning = true ∧
      (connectAttempt rand p s).2 = false) ∧
    (p.connectionRejectionPercentage = 100 → 0 ≤ rand → rand < 1 →
      (connectAttempt rand p s).1.connected = false ∧
      (connectAttempt rand p s).1.failedConnections =
        s.failedConnections + 1) ∧
    (p.connectionRejectionPercentage = 0 → 0 ≤ rand →
      (connectAttempt rand p s).1.connected = true) := by
  refine ⟨fun hfail => ?_, fun hsucc => ?_, fun h100 h0 h1 => ?_,
    fun hzero h0 => ?_⟩
  · simp [connectAttempt, hfail]
  · simp [connectAttempt, hsucc]
  · have hfail : rand < p.connectionRejectionPercentage / 100 := by
      rw [h100]; norm_num; exact h1
    simp [connectAttempt, hfail]
  · have hsucc : ¬rand < p.connectionRejectionPercentage / 100 := by
      rw [hzero]; norm_num; exact h0
    simp [connectAttempt, hsucc]

/-- Witness for claim C4: with the default 50% rejection a draw of 1/4
fails (scheduling a retry, since attempts are unlimited) and a draw of 3/4
succeeds; with 100% rejection a draw of 1/2 fails; with 0% it succeeds. -/
theorem connectAttempt_characterisation_witness :
    (connectAttempt (1 / 4) defaultParams initialState).1.connected = false ∧
    (connectAttempt (1 / 4) defaultParams initialState).2 = true ∧
    (connectAttempt (3 / 4) defaultParams initialState).1.connected = true ∧
    (connectAttempt (1 / 2)
      { defaultParams with connectionRejectionPercentage := 100 }
      initialState).1.connected = false ∧
    (connectAttempt (1 / 2)
      { defaultParams with connectionRejectionPercentage := 0 }
      initialState).1.connected = true := by
  refine ⟨((connectAttempt_characterisation defaultParams initialState
      (1 / 4)).1 (by norm_num [defaultParams])).2.1,
    ((connectAttempt_characterisation defaultParams initialState
      (1 / 4)).1 (by norm_num [defaultParams])).2.2.mpr
      (Or.inl rfl),
    ((connectAttempt_characterisation defaultParams initialState
      (3 / 4)).2.1 (by norm_num [defaultParams])).2.1,
    ((connectAttempt_characterisation
      { defaultParams with connectionRejectionPercentage := 100 }
      initialState (1 / 2)).2.2.1 rfl (by norm_num) (by norm_num)).1,
    ((connectAttempt_characterisation
      { defaultParams with connectionRejectionPercentage := 0 }
      initialState (1 / 2)).2.2.2 rfl (by norm_num))⟩

end RoastSight

namespace RoastSight

/-- Unfolding a run one operation at a time. -/
theorem run_cons (p : Params) (op : Op) (ops : List Op) (s : DriverState) :
    run p (op :: ops) s = run p ops (step p op s) := rfl

/-- No driver operation changes the burner value: the tick randomises only
the measures without a target, the verb handlers write only `targetValue`,
and the zero-argument retry invocation takes the default branch. -/
theorem step_burner_value (p : Params) (op : Op) (s : DriverState) :
    (step p op s).burnerLevel.value = s.burnerLevel.value := by
  cases op with
  | connect rand =>
      simp only [step, connectAttempt]
      split <;> rfl
  | disconnect => rfl
  | command verb target =>
      simp only [step, command, invokeBurnerBehavior]
      unfold changeBurnerLevel
      split <;> simp [changeBurnerLevelTo]
  | checkCommand => exact checkCommand_burner_value p s
  | retryCommand => exact retryCommand_value s
  | tick rb ra =>
      have h := checkCommand_burner_value p
        { s with beanTemperature := rb, airTemperature := ra }
      simpa [step, tick] using h

/-- Claim C9: the value of the measure with `hasTarget = true`
(`burnerLevel`) is never mutated by any operation, so over every run from
the initial state it stays at its initial 0. -/
theorem burner_value_invariant (p : Params) :
    (∀ op s, (step p op s).burnerLevel.value = s.burnerLevel.value) ∧
    (∀ ops : List Op, (run p ops initialState).burnerLevel.value = 0) := by
  refine ⟨step_burner_value p, fun ops => ?_⟩
  have h : ∀ s : DriverState,
      (run p ops s).burnerLevel.value = s.burnerLevel.value := by
    induction ops with
    | nil => intro s; rfl
    | cons op rest ih =>
        intro s
        rw [run_cons, ih, step_burner_value]
  rw [h initialState]
  rfl

end RoastSight

namespace RoastSight

/-- A tick keeps an uncompleted burner command uncompleted: with value 0
and target 10 the tolerance `|0 - 10| ≤ 0.01 * 0` fails, so
`issuingCommand` stays true, and neither value nor target moves. -/
theorem tick_preserves_far (p : Params) (rb ra : ℚ) (s : DriverState)
    (hv : s.burnerLevel.value = 0) (ht : s.burnerLevel.targetValue = 10)
    (hi : s.issuingCommand = true) :
    (tick rb ra p s).burnerLevel.value = 0 ∧
    (tick rb ra p s).burnerLevel.targetValue = 10 ∧
    (tick rb ra p s).issuingCommand = true := by
  have h1 : (checkCommand p
      { s with beanTemperature := rb, airTemperature := ra
        }).burnerLevel.value = 0 := by
    rw [checkCommand_burner_value]; exact hv
  have h2 : (checkCommand p
      { s with beanTemperature := rb, airTemperature := ra
        }).burnerLevel.targetValue = 10 := by
    rw [checkCommand_burner_target]; exact ht
  have h3 : (checkCommand p
      { s with beanTemperature := rb, airTemperature := ra
        }).issuingCommand = true := by
    cases hcc : (checkCommand p
        { s with beanTemperature := rb, airTemperature := ra
          }).issuingCommand
    · exfalso
      rcases (checkCommand_issuing_false_iff p _).mp hcc with h | h
      · rw [show ({ s with beanTemperature := rb, airTemperature := ra
            } : DriverState).issuingCommand = s.issuingCommand from rfl,
          hi] at h
        exact absurd h (by simp)
      · rw [show ({ s with beanTemperature := rb, airTemperature := ra
            } : DriverState).burnerLevel = s.burnerLevel from rfl,
          hv, ht] at h
        norm_num at h
    · rfl
  exact ⟨by simpa [tick] using h1, by simpa [tick] using h2,
    by simpa [tick] using h3⟩

/-- Claim C1 (amended): `command("burnerLevel","increase",10)` from the
initial state results in `targetValue = 10` and `issuingCommand = true`;
but no operation invokes the stepping routine `moveBurnerLevel`, so over
any subsequent ticks the value stays 0 and `issuingCommand` stays true (no
convergence ever clears it).  The routine `moveBurnerLevel` itself, had it
been invoked, would move the value in fixed steps of 0.5 from 0 to 9.5
(the 95% band) and halt there. -/
theorem burner_increase_scenario (p : Params) (ops : List Op)
    (hticks : ∀ op ∈ ops, ∃ rb ra, op = Op.tick rb ra) :
    (command "increase" 10 initialState).burnerLevel.targetValue = 10 ∧
    (command "increase" 10 initialState).issuingCommand = true ∧
    (command "increase" 10 initialState).burnerLevel.value = 0 ∧
    (run p ops (command "increase" 10 initialState)).burnerLevel.value
      = 0 ∧
    (run p ops (command "increase" 10 initialState)).issuingCommand
      = true ∧
    moveBurnerLevel 19 0 10 = 19 / 2 ∧
    (∀ fuel, moveBurnerLevelLoop 10 (1 / 2) fuel (19 / 2) = 19 / 2) := by
  have hcmd1 : (command "increase" 10
      initialState).burnerLevel.targetValue = 10 := by
    norm_num [command, invokeBurnerBehavior, changeBurnerLevel,
      changeBurnerLevelTo, initialState]
  have hcmd2 : (command "increase" 10 initialState).issuingCommand
      = true := by
    norm_num [command, invokeBurnerBehavior, changeBurnerLevel,
      changeBurnerLevelTo, initialState]
  have hcmd3 : (command "increase" 10 initialState).burnerLevel.value
      = 0 := by
    norm_num [command, invokeBurnerBehavior, changeBurnerLevel,
      changeBurnerLevelTo, initialState]
  have hrun : ∀ ops' : List Op,
      (∀ op ∈ ops', ∃ rb ra, op = Op.tick rb ra) →
      ∀ s : DriverState, s.burnerLevel.value = 0 →
      s.burnerLevel.targetValue = 10 → s.issuingCommand = true →
      (run p ops' s).burnerLevel.value = 0 ∧
      (run p ops' s).burnerLevel.targetValue = 10 ∧
      (run p ops' s).issuingCommand = true := by
    intro ops'
    induction ops' with
    | nil => intro _ s hv ht hi; exact ⟨hv, ht, hi⟩
    | cons op rest ih =>
        intro hall s hv ht hi
        obtain ⟨rb, ra, rfl⟩ := hall op (List.mem_cons_self op rest)
        have hstep := tick_preserves_far p rb ra s hv ht hi
        rw [run_cons]
        exact ih (fun o ho => hall o (List.mem_cons_of_mem _ ho)) _
          hstep.1 hstep.2.1 hstep.2.2
  have hr := hrun ops hticks _ hcmd3 hcmd1 hcmd2
  refine ⟨hcmd1, hcmd2, hcmd3, hr.1, hr.2.2, ?_, ?_⟩
  · norm_num [moveBurnerLevel, moveBurnerLevelLoop]
  · intro fuel
    cases fuel with
    | zero => rfl
    | succ n =>
        simp only [moveBurnerLevelLoop]
        norm_num

/-- Witness for claim C1 (amended) at a one-tick run. -/
theorem burner_increase_scenario_witness :
    (run defaultParams [Op.tick 1 2]
      (command "increase" 10 initialState)).issuingCommand = true ∧
    (run defaultParams [Op.tick 1 2]
      (command "increase" 10 initialState)).burnerLevel.value = 0 := by
  have h := burner_increase_scenario defaultParams [Op.tick 1 2] (by
    intro op hop
    rw [List.mem_singleton] at hop
    exact ⟨1, 2, hop⟩)
  exact ⟨h.2.2.2.2.1, h.2.2.2.1⟩

/-- Counterexample to claim C1 as stated: after
`command("burnerLevel","increase",10)` from the initial state and two
subsequent ticks, the burner value is still 0 (it never moved toward 10,
let alone reached 9.5) and `issuingCommand` is still true (the convergence
check never cleared it). -/
theorem burner_increase_scenario_counterexample :
    (run defaultParams
        [Op.command "increase" 10, Op.tick 1 2, Op.tick 3 4]
        initialState).burnerLevel.value = 0 ∧
    (run defaultParams
        [Op.command "increase" 10, Op.tick 1 2, Op.tick 3 4]
        initialState).issuingCommand = true := by
  norm_num [run, List.foldl, step, tick, checkCommand, shouldRetryCommand,
    retryCommand, invokeBurnerBehavior, command, changeBurnerLevel,
    changeBurnerLevelTo, initialState, defaultParams]

end RoastSight

namespace RoastSight

/-- Claim C2 (amended): for every unsupported verb (anything other than
`"set_to"` and `"increase"`, including `"decrease"` and `"take_control"`),
the verb dispatch `changeBurnerLevel` is a reported no-op — it changes no
state and (being total) throws no fault.  The `command` entry point,
however, still records the intent before dispatching: it sets
`issuingCommand := true`, `lastCommand`, `previousValue := value` and
`targetValue := target`, so the full `command` call does not leave the
driver state unchanged. -/
theorem unsupported_verb_dispatch (verb : String) (target : ℚ)
    (s : DriverState) (h1 : verb ≠ "set_to") (h2 : verb ≠ "increase") :
    changeBurnerLevel verb target s = s ∧
    command verb target s =
      { s with
        issuingCommand := true
        lastVerb := some verb
        lastTarget := some target
        burnerLevel :=
          { s.burnerLevel with
            previousValue := s.burnerLevel.value
            targetValue := target }
        actuationInvocations := s.actuationInvocations + 1 } := by
  have hdisp : ∀ s' : DriverState, changeBurnerLevel verb target s' = s' := by
    intro s'
    unfold changeBurnerLevel
    split
    · exact absurd rfl h1
    · exact absurd rfl h2
    · rfl
  refine ⟨hdisp s, ?_⟩
  show changeBurnerLevel verb target _ = _
  rw [hdisp]

/-- Witness for claim C2 (amended) at verb `"decrease"`. -/
theorem unsupported_verb_dispatch_witness :
    changeBurnerLevel "decrease" 5 initialState = initialState ∧
    (command "decrease" 5 initialState).issuingCommand = true :=
  ⟨(unsupported_verb_dispatch "decrease" 5 initialState (by decide)
      (by decide)).1,
    by rw [(unsupported_verb_dispatch "decrease" 5 initialState (by decide)
      (by decide)).2]⟩

/-- Counterexample to claim C2 as stated: invoking
`command("burnerLevel","decrease",5)` from the initial state does not
leave the driver state unchanged — `issuingCommand` flips to true and
`targetValue` becomes 5 even though the verb is unsupported. -/
theorem unsupported_verb_counterexample :
    (command "decrease" 5 initialState).issuingCommand = true ∧
    initialState.issuingCommand = false ∧
    (command "decrease" 5 initialState).burnerLevel.targetValue = 5 ∧
    initialState.burnerLevel.targetValue = 0 ∧
    command "decrease" 5 initialState ≠ initialState := by
  refine ⟨rfl, rfl, rfl, rfl, ?_⟩
  intro heq
  have h1 : (command "decrease" 5 initialState).issuingCommand = true := rfl
  rw [heq] at h1
  exact absurd h1 (by decide)

end RoastSight
